import Mathlib

/-!
Verification of the grocery management orchestration script (`app/app.py`).

The script wires four LLM agents into a linear pipeline: receipt reading,
expiration-date estimation, grocery tracking, recipe recommendation.  We give
a shallow embedding of its data model and functions:

* the process environment is a map `String → Option String`;
* the file system is abstracted as a map `String → Option String`
  (`some contents` when a file exists at the path, `none` otherwise), and a
  failed `open` is modelled as `Option` propagation, mirroring the uncaught
  Python exception;
* the external `markdown` renderer is an abstract function
  `String → String` passed as a parameter (its internals are not part of this
  repository);
* `Agent`, `WebsiteSearchTool`, `Task` are transcribed as structures holding
  exactly the fields the script supplies (with the framework defaults for the
  fields it omits: empty context, `human_input = False`, no output file,
  no tools);
* `create_agents`, `define_tasks`, `load_receipt`, `setup_environment` are
  transcribed literally, and `main_run` mirrors the `__main__` block up to
  (but not including) the external `run_crew` / `Crew.kickoff` call, whose
  behaviour is delegated to the external framework.
-/

namespace GMAS

/-- The process environment: a finite-support map from variable names to
values, modelled as a total function into `Option String`. -/
def Env : Type := String → Option String

/-- A single `os.environ[k] = v` assignment. -/
def envSet (env : Env) (k v : String) : Env :=
  fun x => if x = k then some v else env x

/-- `setup_environment` from `app.py`: two sequential `os.environ`
assignments with hardcoded placeholder values. -/
def setup_environment (env : Env) : Env :=
  envSet (envSet env "OPENAI_API_KEY" "[YOUR OPENAI API KEY]")
    "LLAMA_OCR_API_KEY" "[YOUR LLAMA OCR API KEY]"

/-- The file system, abstracted as path ↦ contents (`none` = no file). -/
def FileSystem : Type := String → Option String

/-- `load_receipt` from `app.py`: open the file at `file_path`, read it,
return `markdown(contents)`.  A missing file makes `open` raise an uncaught
exception, modelled as `none`. -/
def load_receipt (markdown : String → String) (fs : FileSystem)
    (file_path : String) : Option String :=
  (fs file_path).map markdown

/-- `crewai_tools.WebsiteSearchTool`, as configured by this script: a tool
restricted to one website. -/
structure WebsiteSearchTool where
  website : String
deriving DecidableEq, Repr

/-- `crewai.Agent`, restricted to the fields this script supplies.  `tools`
defaults to none and `human_input` to `false` when the constructor call
omits them. -/
structure Agent where
  role : String
  goal : String
  backstory : String
  personality : String
  allow_delegation : Bool
  verbose : Bool
  tools : List WebsiteSearchTool := []
  human_input : Bool := false
deriving DecidableEq, Repr

/-- A JSON-shaped value, used for the `expected_output` schema dictionaries
the script passes to each `crewai.Task`. -/
inductive JsonValue where
  | str (s : String)
  | arr (elems : List JsonValue)
  | obj (fields : List (String × JsonValue))

/-- `crewai.Task`, restricted to the fields this script supplies.  `context`
is a list of prior tasks (empty when the constructor call omits it),
`human_input` defaults to `false` and `output_file` to `none`. -/
inductive Task where
  | mk (agent : Agent) (description : String) (expected_output : JsonValue)
      (context : List Task) (human_input : Bool)
      (output_file : Option String)

/-- The `agent=` field of a task. -/
def Task.agent : Task → Agent
  | .mk a _ _ _ _ _ => a

/-- The `description=` field of a task. -/
def Task.description : Task → String
  | .mk _ d _ _ _ _ => d

/-- The `expected_output=` field of a task. -/
def Task.expected_output : Task → JsonValue
  | .mk _ _ e _ _ _ => e

/-- The `context=` field of a task. -/
def Task.context : Task → List Task
  | .mk _ _ _ c _ _ => c

/-- The `human_input=` field of a task. -/
def Task.human_input : Task → Bool
  | .mk _ _ _ _ h _ => h

/-- The `output_file=` field of a task. -/
def Task.output_file : Task → Option String
  | .mk _ _ _ _ _ o => o

/-- `create_agents` from `app.py`: the four agents, with every string field
transcribed verbatim (Python adjacent string literals concatenated). -/
def create_agents : Agent × Agent × Agent × Agent :=
  let receipt_interpreter_agent : Agent :=
    { role := "Receipt Markdown Interpreter"
      goal := "Extract items, their counts, and weights with units from a receipt in markdown format. Provide structured data to support the grocery management system."
      backstory := "As a key member of the grocery management crew, this agent extracts details such as item names, quantities, and weights from receipt markdown files. Its role is vital for tracking inventory levels."
      personality := "Diligent, detail-oriented, and efficient."
      allow_delegation := false
      verbose := true }
  let expiration_date_search_web_tool : WebsiteSearchTool :=
    { website := "https://www.stilltasty.com/" }
  let expiration_date_search_agent : Agent :=
    { role := "Expiration Date Estimation Specialist"
      goal := "Estimate the expiration dates of items extracted by the Receipt Interpreter Agent. Utilize online sources to determine typical shelf life when refrigerated."
      backstory := "This agent ensures groceries are consumed before expiration by searching for shelf-life estimates online."
      personality := "Meticulous, resourceful, and reliable."
      allow_delegation := false
      verbose := true
      tools := [expiration_date_search_web_tool] }
  let grocery_tracker_agent : Agent :=
    { role := "Grocery Inventory Tracker"
      goal := "Track remaining groceries based on user consumption input. Update the inventory list and provide expiration dates."
      backstory := "This agent ensures groceries are accurately tracked, minimizing waste and helping users stay organized."
      personality := "Helpful, detail-oriented, and responsive."
      allow_delegation := false
      verbose := true }
  let recipe_web_tool : WebsiteSearchTool :=
    { website := "https://www.americastestkitchen.com/recipes" }
  let recipe_recommendation_agent : Agent :=
    { role := "Grocery Recipe Recommendation Specialist"
      goal := "Recommend recipes using available ingredients. Suggest restocking recommendations if ingredients are insufficient."
      backstory := "This agent helps households make the most out of their remaining groceries by finding suitable recipes."
      personality := "Creative, resourceful, and efficient."
      allow_delegation := false
      verbose := true
      tools := [recipe_web_tool]
      human_input := true }
  ( receipt_interpreter_agent
  , expiration_date_search_agent
  , grocery_tracker_agent
  , recipe_recommendation_agent )

/-- `define_tasks` from `app.py`: builds the four tasks.  Every description
string and `expected_output` schema dictionary is transcribed verbatim; the
f-string interpolations of `receipt_markdown` and `today` appear only in the
first task's description. -/
def define_tasks (receipt_markdown today : String)
    (agents : Agent × Agent × Agent × Agent) : List Task :=
  let ( receipt_interpreter_agent
      , expiration_date_search_agent
      , grocery_tracker_agent
      , recipe_recommendation_agent ) := agents
  let read_receipt_task : Task :=
    .mk receipt_interpreter_agent
      ("Analyze the receipt markdown file: " ++ receipt_markdown ++
        ". Extract information on items purchased, their counts, weights, and units. Today's date is "
        ++ today ++ ". Ensure all item names are clear and human-readable.")
      (.obj
        [ ("items", .arr
            [ .obj
                [ ("item_name", .str "string - Human-readable name of the item")
                , ("count", .str "integer - Number of units purchased")
                , ("unit", .str "string - Unit of measurement (e.g., kg, lbs, pcs)") ] ])
        , ("date_of_purchase", .str "string - Date in YYYY-MM-DD format") ])
      [] false none
  let expiration_date_search_task : Task :=
    .mk expiration_date_search_agent
      "Using the list of items extracted by the Receipt Interpreter Agent, search online to find the typical shelf life of each item. Add this information to the purchase date to estimate the expiration date for each item."
      (.obj
        [ ("items", .arr
            [ .obj
                [ ("item_name", .str "string - Human-readable name of the item")
                , ("count", .str "integer - Number of units purchased")
                , ("unit", .str "string - Unit of measurement (e.g., kg, lbs, pcs)")
                , ("expiration_date", .str "string - Estimated expiration date in YYYY-MM-DD format") ] ]) ])
      [read_receipt_task] false none
  let grocery_tracking_task : Task :=
    .mk grocery_tracker_agent
      "Using the grocery list with expiration dates, update the inventory based on user input about consumed items. Subtract consumed quantities and provide a summary of what's left, including expiration dates."
      (.obj
        [ ("items", .arr
            [ .obj
                [ ("item_name", .str "string - Human-readable name of the item")
                , ("count", .str "integer - Updated number of units remaining")
                , ("unit", .str "string - Unit of measurement (e.g., kg, lbs, pcs)")
                , ("expiration_date", .str "string - Estimated expiration date in YYYY-MM-DD format") ] ]) ])
      [expiration_date_search_task] true
      (some "../data/grocery_management_agents_system/output/grocery_tracker.json")
  let recipe_recommendation_task : Task :=
    .mk recipe_recommendation_agent
      "Using the updated grocery list, search online for recipes that utilize available ingredients. If no suitable recipe can be found, provide restocking recommendations."
      (.obj
        [ ("recipes", .arr
            [ .obj
                [ ("recipe_name", .str "string - Name of the recipe")
                , ("ingredients", .arr
                    [ .obj
                        [ ("item_name", .str "string - Ingredient name")
                        , ("quantity", .str "string - Quantity required")
                        , ("unit", .str "string - Measurement unit (e.g., kg, pcs, tbsp)") ] ])
                , ("steps", .arr [ .str "string - Step-by-step instructions for the recipe" ])
                , ("source", .str "string - Website URL for the recipe") ] ])
        , ("restock_recommendations", .arr
            [ .obj
                [ ("item_name", .str "string - Name of the item to restock")
                , ("quantity_needed", .str "integer - Suggested quantity to purchase")
                , ("unit", .str "string - Measurement unit (e.g., kg, pcs)") ] ]) ])
      [grocery_tracking_task] false
      (some "../data/grocery_management_agents_system/output/recipe_recommendation.json")
  [ read_receipt_task
  , expiration_date_search_task
  , grocery_tracking_task
  , recipe_recommendation_task ]

/-- The hardcoded receipt path of the `__main__` block. -/
def receipt_file_path : String :=
  "../data/grocery_management_agents_system/extracted/grocery_receipt.md"

/-- The `__main__` block of `app.py`, up to (but excluding) the external
`run_crew` / `Crew.kickoff` call: set up the environment, load the receipt
from the hardcoded path, then (only if loading succeeded) create the agents
and define the tasks with the hardcoded date `2024-11-16`.  The result pairs
the mutated environment with `none` when loading failed (the uncaught
exception terminates the run before any agent or task is constructed). -/
def main_run (markdown : String → String) (fs : FileSystem) (env : Env) :
    Env × Option ((Agent × Agent × Agent × Agent) × List Task) :=
  let env1 := setup_environment env
  match load_receipt markdown fs receipt_file_path with
  | none => (env1, none)
  | some receipt_markdown =>
      let today := "2024-11-16"
      let agents := create_agents
      let tasks := define_tasks receipt_markdown today agents
      (env1, some (agents, tasks))

/-- A task with its `context` field cleared; used to compare tasks while
ignoring the context chain. -/
def stripContext : Task → Task
  | .mk a d e _ h o => .mk a d e [] h o

/-- The description of the first task of a pipeline, or `""` when the
pipeline is empty; used to exhibit how the receipt reaches the first stage. -/
def firstDescription (l : List Task) : String :=
  match l with
  | [] => ""
  | t :: _ => t.description

/-- The description of the first context task of `t`, or `""` when `t` has
no context. -/
def contextHeadDescription (t : Task) : String :=
  match t.context with
  | [] => ""
  | c :: _ => c.description

/-- `contextHeadDescription` of the first task of a list. -/
def firstContextDescription (l : List Task) : String :=
  match l with
  | [] => ""
  | t :: _ => contextHeadDescription t

/-- Claim C1: for every receipt string, date string and 4-tuple of agents,
`define_tasks` returns exactly four tasks in the fixed order (receipt
reading, expiration estimation, grocery tracking, recipe recommendation,
witnessed by their agents), where the first task has no context and each
later task's context is exactly the singleton of its predecessor: a straight
chain A→B→C→D with no feedback edge. -/
theorem define_tasks_pipeline_chain (receipt_markdown today : String)
    (a b c d : Agent) :
    ∃ t1 t2 t3 t4,
      define_tasks receipt_markdown today (a, b, c, d) = [t1, t2, t3, t4] ∧
      t1.context = [] ∧ t2.context = [t1] ∧ t3.context = [t2] ∧
      t4.context = [t3] ∧
      t1.agent = a ∧ t2.agent = b ∧ t3.agent = c ∧ t4.agent = d :=
  ⟨_, _, _, _, rfl, rfl, rfl, rfl, rfl, rfl, rfl, rfl, rfl⟩

/-- Claim C2: for every path at which no file exists, `load_receipt`
returns no value (the file-open failure propagates uncaught), and when the
hardcoded receipt path is missing the main block terminates with the
environment mutated but no agent or task constructed. -/
theorem load_receipt_missing_file (markdown : String → String)
    (fs : FileSystem) (env : Env) (p : String)
    (h : fs p = none) (hr : fs receipt_file_path = none) :
    load_receipt markdown fs p = none ∧
    main_run markdown fs env = (setup_environment env, none) := by
  constructor
  · simp [load_receipt, h]
  · simp [main_run, load_receipt, hr]

/-- Witness for C2 at a concrete empty file system. -/
theorem load_receipt_missing_file_witness :
    load_receipt (fun s => s) (fun _ => none) "x" = none ∧
    main_run (fun s => s) (fun _ => none) (fun _ => none) =
      (setup_environment (fun _ => none), none) :=
  load_receipt_missing_file (fun s => s) (fun _ => none) (fun _ => none)
    "x" rfl rfl

/-- Claim C3: `setup_environment` sets exactly the two variables
`OPENAI_API_KEY` and `LLAMA_OCR_API_KEY` and leaves every other entry of
the environment unchanged; and no later step of the program reads the
environment at all — the agents-and-tasks part of `main_run` is the same
for any two starting environments, so in particular the value stored under
`LLAMA_OCR_API_KEY` is never read. -/
theorem setup_environment_frame (env env2 : Env) (k : String)
    (markdown : String → String) (fs : FileSystem)
    (h1 : k ≠ "OPENAI_API_KEY") (h2 : k ≠ "LLAMA_OCR_API_KEY") :
    setup_environment env k = env k ∧
    setup_environment env "OPENAI_API_KEY" = some "[YOUR OPENAI API KEY]" ∧
    setup_environment env "LLAMA_OCR_API_KEY" =
      some "[YOUR LLAMA OCR API KEY]" ∧
    (main_run markdown fs env).2 = (main_run markdown fs env2).2 := by
  refine ⟨?_, ?_, ?_, ?_⟩
  · simp [setup_environment, envSet, h1, h2]
  · simp [setup_environment, envSet]
  · simp [setup_environment, envSet]
  · cases h : fs receipt_file_path <;> simp [main_run, load_receipt, h]

/-- Witness for C3 at a concrete environment and the unrelated key
`HOME`. -/
theorem setup_environment_frame_witness :
    setup_environment (fun _ => none) "HOME" = (fun _ => none : Env) "HOME" ∧
    setup_environment (fun _ => none) "OPENAI_API_KEY" =
      some "[YOUR OPENAI API KEY]" ∧
    setup_environment (fun _ => none) "LLAMA_OCR_API_KEY" =
      some "[YOUR LLAMA OCR API KEY]" ∧
    (main_run (fun s => s) (fun _ => none) (fun _ => none)).2 =
      (main_run (fun s => s) (fun _ => none) (fun _ => some "real-key")).2 :=
  setup_environment_frame (fun _ => none) (fun _ => some "real-key") "HOME"
    (fun s => s) (fun _ => none) (by decide) (by decide)

/-- Claim C4: of the four tasks, exactly the third (grocery tracking) and
fourth (recipe recommendation) persist an output file, at the two fixed
relative paths; the first two tasks have none. -/
theorem define_tasks_output_files (receipt_markdown today : String)
    (agents : Agent × Agent × Agent × Agent) :
    (define_tasks receipt_markdown today agents).map Task.output_file =
      [ none, none,
        some "../data/grocery_management_agents_system/output/grocery_tracker.json",
        some "../data/grocery_management_agents_system/output/recipe_recommendation.json" ] := by
  obtain ⟨a, b, c, d⟩ := agents
  rfl

/-- Claim C5: for every existing file, `load_receipt` returns the
markdown-rendered contents `markdown(contents)` (not the raw text), and in
the main block this rendered string is exactly what is interpolated into
the first pipeline task's description. -/
theorem load_receipt_markdown_rendered (markdown : String → String)
    (fs : FileSystem) (env : Env) (contents : String)
    (h : fs receipt_file_path = some contents) :
    load_receipt markdown fs receipt_file_path = some (markdown contents) ∧
    ∃ tasks,
      (main_run markdown fs env).2 = some (create_agents, tasks) ∧
      firstDescription tasks =
        "Analyze the receipt markdown file: " ++ markdown contents ++
        ". Extract information on items purchased, their counts, weights, and units. Today's date is "
        ++ "2024-11-16" ++
        ". Ensure all item names are clear and human-readable." := by
  refine ⟨by simp [load_receipt, h], ?_⟩
  refine ⟨define_tasks (markdown contents) "2024-11-16" create_agents, ?_, rfl⟩
  simp [main_run, load_receipt, h]

/-- Witness for C5 at a concrete file system and a concrete renderer that
changes the text. -/
theorem load_receipt_markdown_rendered_witness :
    load_receipt (fun s => "<p>" ++ s ++ "</p>") (fun _ => some "milk 2")
        receipt_file_path =
      some ((fun s => "<p>" ++ s ++ "</p>") "milk 2") ∧
    ∃ tasks,
      (main_run (fun s => "<p>" ++ s ++ "</p>") (fun _ => some "milk 2")
            (fun _ => none)).2 =
        some (create_agents, tasks) ∧
      firstDescription tasks =
        "Analyze the receipt markdown file: " ++
        (fun s => "<p>" ++ s ++ "</p>") "milk 2" ++
        ". Extract information on items purchased, their counts, weights, and units. Today's date is "
        ++ "2024-11-16" ++
        ". Ensure all item names are clear and human-readable." :=
  load_receipt_markdown_rendered (fun s => "<p>" ++ s ++ "</p>")
    (fun _ => some "milk 2") (fun _ => none) "milk 2" rfl

/-- Claim C6: the main block takes no command-line input: for every file
system, renderer and starting environment, its whole behaviour is to set up
the environment, read the single hardcoded relative path, and (on success)
build the agents and the tasks with the hardcoded reference date
`2024-11-16`. -/
theorem main_run_fixed_path_and_date (markdown : String → String)
    (fs : FileSystem) (env : Env) :
    main_run markdown fs env =
      (setup_environment env,
        (fs receipt_file_path).map
          (fun contents =>
            (create_agents,
              define_tasks (markdown contents) "2024-11-16" create_agents))) := by
  cases h : fs receipt_file_path <;> simp [main_run, load_receipt, h]

/-- Claim C8: `setup_environment` unconditionally overwrites both keys with
the placeholder literals, for every prior environment state. -/
theorem setup_environment_overwrites (env : Env) :
    setup_environment env "OPENAI_API_KEY" = some "[YOUR OPENAI API KEY]" ∧
    setup_environment env "LLAMA_OCR_API_KEY" =
      some "[YOUR LLAMA OCR API KEY]" := by
  constructor <;> simp [setup_environment, envSet]

/-- Claim C9: exactly one task (the third, grocery tracking) is built with
`human_input = true`, and exactly one agent (the fourth, recipe
recommendation) is built with `human_input = true`; the first two stages
request none. -/
theorem human_input_flags (receipt_markdown today : String)
    (agents : Agent × Agent × Agent × Agent) :
    (define_tasks receipt_markdown today agents).map Task.human_input =
      [false, false, true, false] ∧
    create_agents.1.human_input = false ∧
    create_agents.2.1.human_input = false ∧
    create_agents.2.2.1.human_input = false ∧
    create_agents.2.2.2.human_input = true := by
  obtain ⟨a, b, c, d⟩ := agents
  exact ⟨rfl, rfl, rfl, rfl, rfl⟩

/-- Claim C10 counterexample: two calls of `define_tasks` differing only in
the receipt string do NOT return identical second, third and fourth tasks:
the second task's context field holds the first task, whose description
embeds the receipt, so the tails of the two task lists differ. -/
theorem define_tasks_later_tasks_not_identical :
    ¬ ((define_tasks "a" "2024-11-16" create_agents).drop 1 =
        (define_tasks "b" "2024-11-16" create_agents).drop 1) := by
  intro h
  exact absurd (congrArg firstContextDescription h) (by decide)

/-- Claim C10 (amended): for any two calls of `define_tasks` differing only
in `receipt_markdown` and/or `today`, the second, third and fourth tasks are
identical in every field except `context`: once the context chain is
stripped, the tails of the two task lists are equal, so the raw inputs are
interpolated only into the first task's description and can reach later
stages only through the context chain. -/
theorem define_tasks_noninterference_except_context
    (r1 d1 r2 d2 : String) (agents : Agent × Agent × Agent × Agent) :
    ((define_tasks r1 d1 agents).drop 1).map stripContext =
      ((define_tasks r2 d2 agents).drop 1).map stripContext := by
  obtain ⟨a, b, c, d⟩ := agents
  rfl

end GMAS
